import Mathlib

/-!
Shallow embedding of the AttnMel repository (IPMI2019-AttnMel):
  * `src/ISIC2018/model5.py` — the `AttnVGG` model (non-local self-attention
    variant): constructor, gate configuration, and `forward`.
  * `src/ISIC2017/train.py` — model selection, checkpointing schedule and the
    test-metrics CSV writing of the training/evaluation loop.
The convolutional blocks (`blocks.ConvBlock`), the attention block
(`blocks.SelfAttentionBlock`) and the weight initializers live in files that
are not part of the source tree; where a claim needs them they are modelled
from the specification, and each such definition says so in its doc comment.
-/

/-! ## Configuration-level model (model5.py, lines 11-42) -/

/-- Configuration of a `ConvBlock(in_features, out_features, num_layers)`
as instantiated in `AttnVGG.__init__` (model5.py lines 16-20). -/
structure ConvBlockCfg where
  in_features : Nat
  out_features : Nat
  num_layers : Nat
deriving DecidableEq, Repr

/-- Configuration of a `SelfAttentionBlock(transform=..., normalize_attn=...)`
as instantiated in `AttnVGG.__init__` (model5.py lines 27-29). -/
structure SelfAttentionBlockCfg where
  transform : Bool
  normalize_attn : Bool
deriving DecidableEq, Repr

/-- Configuration of an `nn.Linear(in_features, out_features, bias)`
(model5.py line 31). -/
structure LinearCfg where
  in_features : Nat
  out_features : Nat
  bias : Bool
deriving DecidableEq, Repr

/-- The state assembled by `AttnVGG.__init__` (model5.py lines 12-31):
the attention switch, the five convolutional blocks, the three optional
attention gates and the final linear classifier. -/
structure AttnVGG where
  attention : Bool
  conv_block1 : ConvBlockCfg
  conv_block2 : ConvBlockCfg
  conv_block3 : ConvBlockCfg
  conv_block4 : ConvBlockCfg
  conv_block5 : ConvBlockCfg
  attn1 : Option SelfAttentionBlockCfg
  attn2 : Option SelfAttentionBlockCfg
  attn3 : Option SelfAttentionBlockCfg
  classify : LinearCfg
deriving DecidableEq, Repr

/-- Transcription of `AttnVGG.__init__(num_classes, attention=True,
normalize_attn=True, init='kaimingNormal')`, model5.py lines 12-42: the three gates
are built (when `attention` holds) as
`SelfAttentionBlock(transform=False, normalize_attn=True)` — the literal
`True` of lines 27-29, NOT the constructor argument `normalize_attn` —
and an unrecognized `init` name raises `NotImplementedError`. -/
def AttnVGG.make (num_classes : Nat) (attention : Bool)
    (normalize_attn : Bool) (init : String) : Except String AttnVGG :=
  if init = "kaimingNormal" ∨ init = "kaimingUniform" ∨
     init = "xavierNormal" ∨ init = "xavierUniform" then
    Except.ok
      { attention := attention
        conv_block1 := ⟨3, 64, 2⟩
        conv_block2 := ⟨64, 128, 2⟩
        conv_block3 := ⟨128, 256, 3⟩
        conv_block4 := ⟨256, 512, 3⟩
        conv_block5 := ⟨512, 512, 3⟩
        attn1 := if attention then some ⟨false, true⟩ else none
        attn2 := if attention then some ⟨false, true⟩ else none
        attn3 := if attention then some ⟨false, true⟩ else none
        classify := ⟨512, num_classes, true⟩ }
  else
    Except.error "Invalid type of initialization!"

/-- Model selection in `train.py` lines 105-112: `"VGGNet"` and `"ResNet"`
build the corresponding network; any other `--model` value raises
`NotImplementedError("Invalid base model name!")`. -/
inductive ModelChoice where
  | vgg : ModelChoice
  | resnet : ModelChoice
deriving DecidableEq, Repr

/-- Transcription of train.py lines 105-112. -/
def selectModel (name : String) : Except String ModelChoice :=
  if name = "VGGNet" then Except.ok ModelChoice.vgg
  else if name = "ResNet" then Except.ok ModelChoice.resnet
  else Except.error "Invalid base model name!"

/-! ## Value-level forward pass (model5.py, lines 43-58)

The forward pass is embedded parameterically over the tensor type and over
the denotations of the building blocks (whose numerical internals are not in
the source tree); the control flow, the sharing and the order of application
are exactly those of `AttnVGG.forward`. -/

/-- The building blocks used by `AttnVGG.forward`, as functions on an
abstract tensor type `T`: the five conv blocks, max-pooling with
kernel 2 / stride 2, the three self-attention gates (each a function of a
SINGLE tensor, returning the pair `(attention map, re-weighted features)`
exactly as `self.attn1(...)` is called on one argument in model5.py lines
48-50), the `self.feature` global-descriptor head, `torch.squeeze`, and the
final linear classifier. -/
structure Components (T : Type) where
  conv1 : T → T
  conv2 : T → T
  conv3 : T → T
  conv4 : T → T
  conv5 : T → T
  pool : T → T
  attn1 : T → T × T
  attn2 : T → T × T
  attn3 : T → T × T
  feature : T → T
  squeeze : T → T
  classify : T → T

/-- Transcription of `AttnVGG.forward` (model5.py lines 43-58): returns
`[out, c1, c2, c3]`, with the three attention maps `Option`-valued because
the source returns `None, None, None` for them when `self.attention` is
off (line 55). -/
def AttnVGG.forwardC {T : Type} (m : Components T) (attention : Bool)
    (x : T) : T × Option T × Option T × Option T :=
  let block1 := m.pool (m.conv1 x)
  let block2 := m.pool (m.conv2 block1)
  if attention then
    let p3 := m.pool (m.conv3 block2)
    let a1 := m.attn1 p3
    let c1 := a1.1
    let block3 := a1.2
    let p4 := m.pool (m.conv4 block3)
    let a2 := m.attn2 p4
    let c2 := a2.1
    let block4 := a2.2
    let p5 := m.pool (m.conv5 block4)
    let a3 := m.attn3 p5
    let c3 := a3.1
    let block5 := a3.2
    let g := m.feature block5
    let out := m.classify (m.squeeze g)
    (out, some c1, some c2, some c3)
  else
    let block3 := m.pool (m.conv3 block2)
    let block4 := m.pool (m.conv4 block3)
    let block5 := m.pool (m.conv5 block4)
    let g := m.feature block5
    let out := m.classify (m.squeeze g)
    (out, none, none, none)

/-! ## Dataflow program of the attention forward pass

A straight-line transcription of model5.py lines 45-50 and 56-58 (the
`self.attention == True` branch), recording for each intermediate value
which operation produced it and which previously computed values that
operation reads.  Every call in the source is unary; a gate call
`c, b = self.attnK(t)` is split into its two projections. -/

/-- The named values of `AttnVGG.forward` (attention branch): the input,
the conv outputs `tK`, the pooled maps, the gate outputs and the tail. -/
inductive V where
  | x | t1 | b1 | t2 | b2 | t3 | p3 | c1 | b3
  | t4 | p4 | c2 | b4 | t5 | p5 | c3 | b5 | g | sq | out
deriving DecidableEq, Repr

/-- The operations appearing in `AttnVGG.forward`. -/
inductive OpK where
  | conv1 | conv2 | conv3 | conv4 | conv5 | pool2x2
  | attnMap1 | attnOut1 | attnMap2 | attnOut2 | attnMap3 | attnOut3
  | featureOp | squeezeOp | classifyOp
deriving DecidableEq, Repr

/-- One assignment `tgt := op(args)` of the straight-line forward pass. -/
structure Step where
  tgt : V
  op : OpK
  args : List V
deriving DecidableEq, Repr

/-- model5.py lines 45-50 and 56-58, in execution order. -/
def forwardProg : List Step :=
  [ ⟨V.t1, OpK.conv1, [V.x]⟩, ⟨V.b1, OpK.pool2x2, [V.t1]⟩,
    ⟨V.t2, OpK.conv2, [V.b1]⟩, ⟨V.b2, OpK.pool2x2, [V.t2]⟩,
    ⟨V.t3, OpK.conv3, [V.b2]⟩, ⟨V.p3, OpK.pool2x2, [V.t3]⟩,
    ⟨V.c1, OpK.attnMap1, [V.p3]⟩, ⟨V.b3, OpK.attnOut1, [V.p3]⟩,
    ⟨V.t4, OpK.conv4, [V.b3]⟩, ⟨V.p4, OpK.pool2x2, [V.t4]⟩,
    ⟨V.c2, OpK.attnMap2, [V.p4]⟩, ⟨V.b4, OpK.attnOut2, [V.p4]⟩,
    ⟨V.t5, OpK.conv5, [V.b4]⟩, ⟨V.p5, OpK.pool2x2, [V.t5]⟩,
    ⟨V.c3, OpK.attnMap3, [V.p5]⟩, ⟨V.b5, OpK.attnOut3, [V.p5]⟩,
    ⟨V.g, OpK.featureOp, [V.b5]⟩,
    ⟨V.sq, OpK.squeezeOp, [V.g]⟩,
    ⟨V.out, OpK.classifyOp, [V.sq]⟩ ]

/-- The values read by the steps that use operation `o`. -/
def readsOf (p : List Step) (o : OpK) : List V :=
  ((p.filter (fun s => s.op = o)).map Step.args).flatten

/-- How many steps assign value `v`. -/
def producers (p : List Step) (v : V) : Nat :=
  (p.filter (fun s => s.tgt = v)).length

/-- Whether `o` is one of the three attention-gate operations. -/
def isGateOp (o : OpK) : Bool :=
  o = OpK.attnMap1 ∨ o = OpK.attnOut1 ∨ o = OpK.attnMap2 ∨
  o = OpK.attnOut2 ∨ o = OpK.attnMap3 ∨ o = OpK.attnOut3

/-- Denotation of each operation via the components (gate calls project the
pair returned by the gate). -/
def opDenote {T : Type} (m : Components T) : OpK → T → T
  | OpK.conv1 => m.conv1
  | OpK.conv2 => m.conv2
  | OpK.conv3 => m.conv3
  | OpK.conv4 => m.conv4
  | OpK.conv5 => m.conv5
  | OpK.pool2x2 => m.pool
  | OpK.attnMap1 => fun t => (m.attn1 t).1
  | OpK.attnOut1 => fun t => (m.attn1 t).2
  | OpK.attnMap2 => fun t => (m.attn2 t).1
  | OpK.attnOut2 => fun t => (m.attn2 t).2
  | OpK.attnMap3 => fun t => (m.attn3 t).1
  | OpK.attnOut3 => fun t => (m.attn3 t).2
  | OpK.featureOp => m.feature
  | OpK.squeezeOp => m.squeeze
  | OpK.classifyOp => m.classify

/-- Run the straight-line program from an environment holding only the
input `x`; every unary step stores its result. -/
def evalProg {T : Type} (m : Components T) (x : T) : V → Option T :=
  forwardProg.foldl
    (fun env s v =>
      if v = s.tgt then
        match s.args with
        | [a] => (env a).map (opDenote m s.op)
        | _ => none
      else env v)
    (fun v => if v = V.x then some x else none)

/-! ## Shape-level forward pass

`Shape` is a tensor shape as a dimension list, batch first.  The shape
behaviour of the blocks missing from the source tree is modelled from the
specification. -/

/-- A tensor shape, batch dimension first. -/
def Shape : Type := List Nat
deriving DecidableEq, Repr

/-- Modelled from the spec: `ConvBlock` (`blocks.py`, not in the source
tree) is a stack of padded convolutions; it changes the channel count to
its configured output channels and preserves the spatial size (the spec's
feature-map invariant: channel count fixed per stage by backbone design,
downsampling done by the separate pooling steps). -/
def convBlockShape (outCh : Nat) : Shape → Shape
  | [n, _, h, w] => [n, outCh, h, w]
  | s => s

/-- Shape action of `F.max_pool2d(., kernel_size=2, stride=2)`: halves both spatial
dimensions (floor division, exact on the 224-sized inputs used here). -/
def maxPool2dShape : Shape → Shape
  | [n, c, h, w] => [n, c, h / 2, w / 2]
  | s => s

/-- Modelled from the spec: `SelfAttentionBlock` (`blocks.py`, not in the
source tree) returns the attention map — one scalar weight per spatial
location per image, shape `(H, W)` per image — together with re-weighted
local features of the same shape as its input (required for the output to
feed the next conv block, model5.py lines 48-50). -/
def attnBlockShapes : Shape → Shape × Shape
  | [n, c, h, w] => ([n, h, w], [n, c, h, w])
  | s => (s, s)

/-- Shape action of `self.feature` (model5.py lines 21-24): a 1x1 conv to 512 channels
followed by `AdaptiveAvgPool2d((1,1))`, so any `(N, C, H, W)` input
becomes `(N, 512, 1, 1)`. -/
def featureShape : Shape → Shape
  | [n, _, _, _] => [n, 512, 1, 1]
  | s => s

/-- Shape action of `torch.squeeze`: removes every dimension of size 1. -/
def squeezeShape (s : Shape) : Shape := s.filter (fun d => d ≠ 1)

/-- Shape action of `nn.Linear(in, out)` applied to a tensor: maps the last dimension to
`out` features. -/
def linearShape (outF : Nat) : Shape → Shape
  | [] => []
  | s => s.dropLast ++ [outF]

/-- Shape semantics of `AttnVGG.forward` (model5.py lines 43-58) for a
model with `num_classes = numClasses`: the logits shape and the three
optional attention-map shapes. -/
def forwardShape (numClasses : Nat) (attention : Bool) (s : Shape) :
    Shape × Option Shape × Option Shape × Option Shape :=
  let block1 := maxPool2dShape (convBlockShape 64 s)
  let block2 := maxPool2dShape (convBlockShape 128 block1)
  if attention then
    let p3 := maxPool2dShape (convBlockShape 256 block2)
    let a1 := attnBlockShapes p3
    let p4 := maxPool2dShape (convBlockShape 512 a1.2)
    let a2 := attnBlockShapes p4
    let p5 := maxPool2dShape (convBlockShape 512 a2.2)
    let a3 := attnBlockShapes p5
    let g := featureShape a3.2
    let out := linearShape numClasses (squeezeShape g)
    (out, some a1.1, some a2.1, some a3.1)
  else
    let block3 := maxPool2dShape (convBlockShape 256 block2)
    let block4 := maxPool2dShape (convBlockShape 512 block3)
    let block5 := maxPool2dShape (convBlockShape 512 block4)
    let g := featureShape block5
    let out := linearShape numClasses (squeezeShape g)
    (out, none, none, none)

/-! ## Training-loop bookkeeping (train.py) -/

/-- The checkpoint files written at the end of epoch `e` of a run
configured with `--epochs epochs` (train.py lines 181-185): `net.pth` is
always (re)written; additionally `net<e>.pth` is written when
`epoch == opt.epochs / 2`.  Both are integers in the source, but `/` is
Python-3 float division, so the equality holds exactly when
`2 * e = epochs`. -/
def checkpointWrites (epochs e : Nat) : List String :=
  "net.pth" :: (if 2 * e = epochs then ["net" ++ toString e ++ ".pth"] else [])

/-- The number of epochs of the run (`for epoch in range(opt.epochs)`) at
which the milestone snapshot `net<epoch>.pth` is written. -/
def milestoneCount (epochs : Nat) : Nat :=
  ((Finset.range epochs).filter (fun e => 2 * e = epochs)).card

/-- The rows the evaluation loop writes to `test_results.csv` for one test
batch (train.py lines 202-204), described by their lengths: the softmax
responses have shape `[n, numClasses]`, `.squeeze()` is applied, and the
code then emits `shape[0]` rows, each a slice of the remaining
dimensions — so each row's length is the product of the dimensions after
the first (an empty product, i.e. a bare scalar, counts as length 1). -/
def csvRowsForBatch (numClasses n : Nat) : List Nat :=
  let sq := squeezeShape [n, numClasses]
  List.replicate (sq.headD 0) ((sq.drop 1).prod)

/-- Total number of rows `test_results.csv` receives for a list of test
batch sizes (the file is opened once per evaluation pass and all batches'
rows appended, train.py lines 189-204). -/
def csvTotalRows (numClasses : Nat) (batchSizes : List Nat) : Nat :=
  (batchSizes.map (fun n => (csvRowsForBatch numClasses n).length)).sum

/-! ## Theorems -/

/-- The dataflow program computes exactly the attention-branch forward pass
of model5.py: its `out`, `c1`, `c2`, `c3` cells agree with
`AttnVGG.forwardC m true x`. -/
theorem evalProg_agrees {T : Type} (m : Components T) (x : T) :
    evalProg m x V.out = some (AttnVGG.forwardC m true x).1 ∧
    evalProg m x V.c1 = (AttnVGG.forwardC m true x).2.1 ∧
    evalProg m x V.c2 = (AttnVGG.forwardC m true x).2.2.1 ∧
    evalProg m x V.c3 = (AttnVGG.forwardC m true x).2.2.2 := by
  refine ⟨rfl, rfl, rfl, rfl⟩

/-- Trivial instantiation of the forward-pass components over `Nat`,
used to exhibit concrete runs. -/
def trivComponents : Components Nat :=
  { conv1 := id, conv2 := id, conv3 := id, conv4 := id, conv5 := id
    pool := id
    attn1 := fun t => (t, t), attn2 := fun t => (t, t), attn3 := fun t => (t, t)
    feature := id, squeeze := id, classify := id }

/-- C1: the claim says the constructor's `normalize_attn` value selects the
gates' normalization variant.  In model5.py lines 27-29 the three gates are
built with the literal `normalize_attn=True`; constructing the model with
the sigmoid variant configured (`normalize_attn=False`) still yields three
softmax gates, and the two configurations produce identical gate
configurations. -/
theorem claimC1_theorem :
    Except.map (fun m => (m.attn1, m.attn2, m.attn3))
        (AttnVGG.make 2 true false "kaimingNormal") =
      Except.ok (some ⟨false, true⟩, some ⟨false, true⟩, some ⟨false, true⟩) ∧
    AttnVGG.make 2 true false "kaimingNormal" =
      AttnVGG.make 2 true true "kaimingNormal" := by
  exact ⟨rfl, rfl⟩

/-- C2 counterexample: the claim says every gate consumes two inputs, its
stage's feature map and the global descriptor `g`.  In the transcribed
forward pass every gate step reads exactly one value, and `g` is not among
the values any gate reads. -/
theorem claimC2_counterexample :
    ((forwardProg.filter (fun s => isGateOp s.op)).all
      (fun s => s.args.length == 1 && !(s.args.contains V.g))) = true := by
  decide

/-- C2 amended: each gate consumes a single input — its own stage's pooled
feature map (`p3`, `p4`, `p5` respectively); the global descriptor is
produced exactly once per forward pass, is produced only after all three
gates have run, is read only by the `squeeze` that feeds the classifier,
and the dataflow program agrees with the value-level forward pass of
model5.py. -/
theorem claimC2_theorem :
    (readsOf forwardProg OpK.attnMap1 = [V.p3] ∧
     readsOf forwardProg OpK.attnOut1 = [V.p3] ∧
     readsOf forwardProg OpK.attnMap2 = [V.p4] ∧
     readsOf forwardProg OpK.attnOut2 = [V.p4] ∧
     readsOf forwardProg OpK.attnMap3 = [V.p5] ∧
     readsOf forwardProg OpK.attnOut3 = [V.p5]) ∧
    producers forwardProg V.g = 1 ∧
    ((forwardProg.dropWhile (fun s => !(s.tgt == V.g))).all
      (fun s => !(isGateOp s.op))) = true ∧
    ((forwardProg.all (fun s => !(s.args.contains V.g) || (s.op == OpK.squeezeOp)))) = true ∧
    ∀ (T : Type) (m : Components T) (x : T),
      evalProg m x V.out = some (AttnVGG.forwardC m true x).1 ∧
      evalProg m x V.c1 = (AttnVGG.forwardC m true x).2.1 ∧
      evalProg m x V.c2 = (AttnVGG.forwardC m true x).2.2.1 ∧
      evalProg m x V.c3 = (AttnVGG.forwardC m true x).2.2.2 := by
  refine ⟨by decide, by decide, by decide, by decide, fun T m x => evalProg_agrees m x⟩

/-- C3 counterexample: the claim says the vector fed to the classifier head
combines the three per-stage pooled vectors with the global descriptor.  In
the transcribed forward pass the classifier reads exactly the squeezed `g`,
the squeeze reads exactly `g`, and the gates' attention outputs `c1`, `c2`,
`c3` are never read by any step at all — nothing is fused. -/
theorem claimC3_counterexample :
    readsOf forwardProg OpK.classifyOp = [V.sq] ∧
    readsOf forwardProg OpK.squeezeOp = [V.g] ∧
    (forwardProg.all (fun s =>
      !(s.args.contains V.c1) && !(s.args.contains V.c2) &&
      !(s.args.contains V.c3))) = true := by
  refine ⟨by decide, by decide, by decide⟩

/-- C3 amended: the single vector fed to the classifier head is the
squeezed global descriptor alone (no combination with per-stage pooled
vectors — the gates' outputs are returned for introspection only), and the
classifier head is the linear layer `nn.Linear(512, num_classes,
bias=True)` of model5.py line 31. -/
theorem claimC3_theorem :
    (readsOf forwardProg OpK.classifyOp = [V.sq] ∧
     readsOf forwardProg OpK.squeezeOp = [V.g] ∧
     producers forwardProg V.sq = 1 ∧
     (forwardProg.all (fun s =>
       !(s.args.contains V.c1) && !(s.args.contains V.c2) &&
       !(s.args.contains V.c3))) = true) ∧
    ∀ (nc : Nat) (a na : Bool),
      Except.map AttnVGG.classify (AttnVGG.make nc a na "kaimingNormal") =
        Except.ok ⟨512, nc, true⟩ := by
  refine ⟨⟨by decide, by decide, by decide, by decide⟩, fun nc a na => rfl⟩

/-- C4: with `attention=False` the three attention-map outputs of the
forward pass are `none` (the source's `None`, not a zero tensor), the gate
components are never consulted (replacing them does not change the
result), and the logits are still produced, by the plain
conv/pool/feature/classify pipeline. -/
theorem claimC4_theorem :
    ∀ (T : Type) (m : Components T) (a1 a2 a3 : T → T × T) (x : T),
      (AttnVGG.forwardC m false x).2.1 = none ∧
      (AttnVGG.forwardC m false x).2.2.1 = none ∧
      (AttnVGG.forwardC m false x).2.2.2 = none ∧
      AttnVGG.forwardC { m with attn1 := a1, attn2 := a2, attn3 := a3 } false x =
        AttnVGG.forwardC m false x ∧
      (AttnVGG.forwardC m false x).1 =
        m.classify (m.squeeze (m.feature (m.pool (m.conv5 (m.pool (m.conv4
          (m.pool (m.conv3 (m.pool (m.conv2 (m.pool (m.conv1 x)))))))))))) := by
  intro T m a1 a2 a3 x
  exact ⟨rfl, rfl, rfl, rfl, rfl⟩

/-- C5: on a `(4, 3, 224, 224)` input batch, the attention model with two
classes produces logits of shape `(4, 2)` and three attention maps of
per-image spatial shapes `(28, 28)`, `(14, 14)` and `(7, 7)` — the /8, /16
and /32 stages of the 224-pixel input. -/
theorem claimC5_theorem :
    forwardShape 2 true [4, 3, 224, 224] =
      ([4, 2], some [4, 28, 28], some [4, 14, 14], some [4, 7, 7]) := by
  rfl

/-- C6: determinism of the forward computation as a two-run property: two
runs with the same components (same weights, as fixed by the seed), the
same loss criterion and the same input batch produce the same forward
outputs and the same scalar loss.  The embedded computation is an exact
function of its inputs, so there is no tolerance to account for. -/
theorem claimC6_theorem {T : Type} (crit crit2 : T → T) (m m2 : Components T)
    (x x2 : T) (hc : crit = crit2) (hm : m = m2) (hx : x = x2) :
    AttnVGG.forwardC m true x = AttnVGG.forwardC m2 true x2 ∧
    crit (AttnVGG.forwardC m true x).1 = crit2 (AttnVGG.forwardC m2 true x2).1 := by
  subst hc; subst hm; subst hx
  exact ⟨rfl, rfl⟩

/-- Witness for C6 at a concrete run: components `trivComponents`, identity
criterion, input `0`. -/
theorem claimC6_witness :
    AttnVGG.forwardC trivComponents true 0 = AttnVGG.forwardC trivComponents true 0 ∧
    id (AttnVGG.forwardC trivComponents true 0).1 =
      id (AttnVGG.forwardC trivComponents true 0).1 :=
  claimC6_theorem id id trivComponents trivComponents 0 0 rfl rfl rfl

/-- C7 counterexample: the claim says every configured epoch count yields
exactly one milestone snapshot.  With `--epochs 1` the milestone test
`epoch == opt.epochs / 2` (true float division: `2 * epoch = epochs`)
never holds — `0 == 0.5` fails — so no snapshot is written at all. -/
theorem claimC7_counterexample : milestoneCount 1 = 0 ∧ milestoneCount 1 ≠ 1 := by
  decide

/-- C7 amended: `net.pth` is (over)written at the end of every epoch, and
the milestone snapshot `net<epoch>.pth` is written exactly once per run
precisely when the configured epoch count is even and at least 2; for odd
or smaller epoch counts it is never written (the float comparison
`epoch == epochs / 2` only hits an integer epoch in range for even
`epochs ≥ 2`). -/
theorem claimC7_theorem (epochs : Nat) :
    (∀ e : Nat, (checkpointWrites epochs e).headD "" = "net.pth") ∧
    milestoneCount epochs =
      if epochs % 2 = 0 ∧ 2 ≤ epochs then 1 else 0 := by
  constructor
  · intro e
    rfl
  · unfold milestoneCount
    by_cases h : epochs % 2 = 0 ∧ 2 ≤ epochs
    · have hf : (Finset.range epochs).filter (fun e => 2 * e = epochs) =
          {epochs / 2} := by
        ext a
        simp only [Finset.mem_filter, Finset.mem_range, Finset.mem_singleton]
        omega
      rw [hf]
      simp [h]
    · have hf : (Finset.range epochs).filter (fun e => 2 * e = epochs) =
          (∅ : Finset Nat) := by
        ext a
        simp only [Finset.mem_filter, Finset.mem_range, Finset.not_mem_empty,
          iff_false, not_and]
        omega
      rw [hf]
      simp [h]

/-- C8: an invalid `--model` name makes `train.py` raise
`NotImplementedError("Invalid base model name!")` (lines 105-112), an
invalid `init` name makes `AttnVGG.__init__` raise
`NotImplementedError("Invalid type of initialization!")` (model5.py lines
32-42), and the two valid model names build the corresponding network —
never a silent fallback. -/
theorem claimC8_theorem (name init : String) (nc : Nat) (a na : Bool)
    (h1 : name ≠ "VGGNet") (h2 : name ≠ "ResNet")
    (h3 : init ≠ "kaimingNormal") (h4 : init ≠ "kaimingUniform")
    (h5 : init ≠ "xavierNormal") (h6 : init ≠ "xavierUniform") :
    selectModel name = Except.error "Invalid base model name!" ∧
    AttnVGG.make nc a na init = Except.error "Invalid type of initialization!" ∧
    selectModel "VGGNet" = Except.ok ModelChoice.vgg ∧
    selectModel "ResNet" = Except.ok ModelChoice.resnet := by
  refine ⟨?_, ?_, rfl, rfl⟩
  · simp [selectModel, h1, h2]
  · simp [AttnVGG.make, h3, h4, h5, h6]

/-- Witness for C8 at concrete invalid names `"AlexNet"` and
`"gaussian"`. -/
theorem claimC8_witness :
    selectModel "AlexNet" = Except.error "Invalid base model name!" ∧
    AttnVGG.make 2 true true "gaussian" =
      Except.error "Invalid type of initialization!" ∧
    selectModel "VGGNet" = Except.ok ModelChoice.vgg ∧
    selectModel "ResNet" = Except.ok ModelChoice.resnet :=
  claimC8_theorem "AlexNet" "gaussian" 2 true true
    (by decide) (by decide) (by decide) (by decide) (by decide) (by decide)

/-- C9: the claim says the metrics file gets exactly one row of per-class
probabilities per test example regardless of batch size.  For a batch of
64 examples with 2 classes the code indeed writes 64 rows of length 2, but
for a batch of a single example the `.squeeze()` of train.py line 202
collapses the batch dimension: `shape[0]` becomes the class count and the
code emits 2 scalar rows for that one example, so 65 examples split into
batches of 64 and 1 yield 66 rows, not 65. -/
theorem claimC9_theorem :
    csvRowsForBatch 2 64 = List.replicate 64 2 ∧
    csvRowsForBatch 2 1 = [1, 1] ∧
    (csvRowsForBatch 2 1).length = 2 ∧
    csvTotalRows 2 [64, 1] = 66 ∧
    csvTotalRows 2 [64, 1] ≠ 64 + 1 := by
  refine ⟨by decide, by decide, by decide, by decide, by decide⟩

/-- C10: the logits shape of the attention forward pass on an
`(N, 3, 224, 224)` batch with `k` classes: for `N ≠ 1` (in particular all
`N ≥ 2`) the batch dimension is preserved and the logits have shape
`(N, k)`, while for `N = 1` the `torch.squeeze` of model5.py line 57 also
removes the batch dimension and the logits have shape `(k,)`. -/
theorem claimC10_theorem (N k : Nat) :
    (forwardShape k true [N, 3, 224, 224]).1 =
      if N = 1 then [k] else [N, k] := by
  by_cases h : N = 1
  · subst h
    rfl
  · simp only [forwardShape, convBlockShape, maxPool2dShape, attnBlockShapes,
      featureShape, squeezeShape, linearShape, List.filter, h]
    simp [h, List.dropLast]
